import Mathlib

/-!
Shallow embedding of `scripts/export_nemo_ctc.py`: the script that exports a
NeMo CTC model to ONNX for sherpa-onnx.  We model the loaded NeMo model, the
tokens.txt writer (both the tokenizer branch and the label-list branch), the
`vocab_size` / config extraction, the five-key metadata dictionary, and the
metadata patch applied to the loaded ONNX artifact.
-/

namespace ExportNemoCtc

/-- A configuration value stored in a NeMo `_cfg` dictionary; the script reads
such values and converts them with Python `str()`. -/
inductive ConfigVal where
  | str (s : String)
  | int (n : Int)
deriving DecidableEq, Repr

/-- Python `str()` applied to a configuration value. -/
def ConfigVal.toStr : ConfigVal → String
  | .str s => s
  | .int n => toString n

/-- The subword tokenizer exposed by a BPE model: `m.tokenizer` in the script.
`ids_to_tokens` models `m.tokenizer.ids_to_tokens([i])[0]`. -/
structure Tokenizer where
  vocab_size : Nat
  ids_to_tokens : Nat → String

/-- The loaded NeMo model, restricted to the attributes the script reads:
`m.tokenizer` (absent or `None` both become `none`), `m.cfg.labels`,
`m.preprocessor._cfg`, and `m.encoder._cfg`. -/
structure Model where
  tokenizer : Option Tokenizer
  cfgLabels : List String
  preprocessorCfg : List (String × ConfigVal)
  encoderCfg : List (String × ConfigVal)

/-- The loaded ONNX artifact, restricted to the fields relevant to the patch:
the graph contents (nodes, weights, inputs, outputs) and `metadata_props`,
the ordered list of key/value metadata entries. -/
structure OnnxModel where
  nodes : List String
  weights : List String
  inputs : List String
  outputs : List String
  metadata_props : List (String × String)
deriving DecidableEq, Repr

/-- Python `cfg.get(key, default)` on a `_cfg` dictionary. -/
def cfgGet (cfg : List (String × ConfigVal)) (key : String) (dflt : ConfigVal) :
    ConfigVal :=
  match cfg.lookup key with
  | some v => v
  | none => dflt

/-- The string the script substitutes for a single-space token, exactly as it
appears in the source file: the three characters U+201A, U+00F1, U+00C5
(mojibake of the UTF-8 bytes of the SentencePiece marker U+2581 that the
source comment names). -/
def spaceSubstitute : String := "‚ñÅ"

/-- The single-character SentencePiece word-boundary marker U+2581. -/
def sentencePieceMarker : String := "▁"

/-- The per-token substitution in the tokenizer branch:
`if token == " ": token = "‚ñÅ"`. -/
def sherpaToken (token : String) : String :=
  if token = " " then spaceSubstitute else token

/-- One `f.write(f"{token} {i}\n")` call, as the line it appends. -/
def renderLine (p : String × Nat) : String :=
  p.1 ++ " " ++ toString p.2 ++ "\n"

/-- The lines written by the tokenizer branch: one `(token, id)` entry per
vocabulary id in `range(vocab_size)`, then the `("<blk>", vocab_size)` entry. -/
def tokenizerTokensLines (tk : Tokenizer) : List (String × Nat) :=
  (List.range tk.vocab_size).map (fun i => (sherpaToken (tk.ids_to_tokens i), i))
    ++ [("<blk>", tk.vocab_size)]

/-- The lines written by the label-list branch: `enumerate(labels)` verbatim,
then the `("<blk>", len(labels))` entry. -/
def labelsTokensLines (labels : List String) : List (String × Nat) :=
  labels.enum.map (fun p => (p.2, p.1)) ++ [("<blk>", labels.length)]

/-- The branch on `hasattr(m, 'tokenizer') and m.tokenizer is not None`,
producing the list of lines written to tokens.txt. -/
def modelTokensLines (m : Model) : List (String × Nat) :=
  match m.tokenizer with
  | some tk => tokenizerTokensLines tk
  | none => labelsTokensLines m.cfgLabels

/-- The full contents of tokens.txt as written by the script. -/
def writeTokensFile (m : Model) : String :=
  String.join ((modelTokensLines m).map renderLine)

/-- The raw vocabulary count: tokenizer vocabulary size when the tokenizer
branch is taken, otherwise the label-list length. -/
def rawVocabCount (m : Model) : Nat :=
  match m.tokenizer with
  | some tk => tk.vocab_size
  | none => m.cfgLabels.length

/-- The `vocab_size` computed for the metadata:
`m.tokenizer.vocab_size + 1` or `len(m.cfg.labels) + 1`. -/
def exportVocabSize (m : Model) : Nat :=
  match m.tokenizer with
  | some tk => tk.vocab_size + 1
  | none => m.cfgLabels.length + 1

/-- `normalize_type = str(m.preprocessor._cfg.get("normalize", ""))`. -/
def normalize_type (m : Model) : String :=
  (cfgGet m.preprocessorCfg "normalize" (.str "")).toStr

/-- `subsampling_factor = str(m.encoder._cfg.get("subsampling_factor", 4))`. -/
def subsampling_factor (m : Model) : String :=
  (cfgGet m.encoderCfg "subsampling_factor" (.int 4)).toStr

/-- The five-entry `metadata` dictionary built by the script, in insertion
order; every value is a `String`. -/
def exportMetadata (m : Model) : List (String × String) :=
  [("vocab_size", toString (exportVocabSize m)),
   ("normalize_type", normalize_type m),
   ("subsampling_factor", subsampling_factor m),
   ("model_type", "EncDecCTCModelBPE"),
   ("version", "1")]

/-- The metadata patch: the loop over `metadata.items()` calling
`model.metadata_props.add()` and setting key and value, i.e. appending the
five entries to `metadata_props` and leaving every other field alone. -/
def patchMetadata (m : Model) (om : OnnxModel) : OnnxModel :=
  { om with metadata_props := om.metadata_props ++ exportMetadata m }

/-- The synthetic tokenizer of claim C1: vocab_size 3, token texts
`["a", " ", "c"]`. -/
def synthTokenizer : Tokenizer :=
  { vocab_size := 3
    ids_to_tokens := fun i => (["a", " ", "c"].getD i "") }

/-- A model taking the tokenizer branch with the synthetic tokenizer. -/
def synthModel : Model :=
  { tokenizer := some synthTokenizer
    cfgLabels := []
    preprocessorCfg := []
    encoderCfg := [] }

/-- A model taking the label-list branch with labels `["x", "y"]`. -/
def xyModel : Model :=
  { tokenizer := none
    cfgLabels := ["x", "y"]
    preprocessorCfg := []
    encoderCfg := [] }

/-- A model with a configured `normalize` value and no `subsampling_factor`. -/
def cfgModel : Model :=
  { tokenizer := none
    cfgLabels := []
    preprocessorCfg := [("normalize", .str "per_feature")]
    encoderCfg := [] }

/-- Claim C1 (code bug): on the synthetic tokenizer with vocab_size 3 and
token texts `["a", " ", "c"]`, the script writes the three-character
mojibake string for the space token, not the single SentencePiece marker
U+2581 that the claim states and the source comment intends; the written
file differs from the claimed one exactly there. -/
theorem C1_space_marker_written :
    writeTokensFile synthModel =
      "a 0\n" ++ spaceSubstitute ++ " 1\nc 2\n<blk> 3\n" ∧
    writeTokensFile synthModel ≠
      "a 0\n" ++ sentencePieceMarker ++ " 1\nc 2\n<blk> 3\n" ∧
    spaceSubstitute ≠ sentencePieceMarker ∧
    spaceSubstitute.length = 3 ∧ sentencePieceMarker.length = 1 := by
  decide

/-- Claim C2: the `vocab_size` metadata value is always the raw vocabulary
count (tokenizer vocabulary size or label count) plus one, and never the raw
count itself. -/
theorem C2_vocab_size_plus_one (m : Model) :
    exportVocabSize m = rawVocabCount m + 1 ∧
    exportVocabSize m ≠ rawVocabCount m := by
  cases h : m.tokenizer <;>
    simp [exportVocabSize, rawVocabCount, h]

/-- Claim C3: the metadata mapping attached by the patch has exactly five
entries, with the fixed keys in order `vocab_size`, `normalize_type`,
`subsampling_factor`, `model_type` (hardcoded `"EncDecCTCModelBPE"`) and
`version` (hardcoded `"1"`); every value is a `String` by the type of
`exportMetadata`, and the patch attaches exactly this mapping. -/
theorem C3_metadata_five_keys (m : Model) (om : OnnxModel) :
    (exportMetadata m).length = 5 ∧
    (exportMetadata m).map Prod.fst =
      ["vocab_size", "normalize_type", "subsampling_factor",
       "model_type", "version"] ∧
    (exportMetadata m).lookup "model_type" = some "EncDecCTCModelBPE" ∧
    (exportMetadata m).lookup "version" = some "1" ∧
    (patchMetadata m om).metadata_props = om.metadata_props ++ exportMetadata m :=
  ⟨rfl, rfl, rfl, rfl, rfl⟩

/-- Claim C4: the label-list branch writes the labels verbatim in index
order followed by the final blank line; for the flat label list
`["x", "y"]` the file equals exactly `"x 0\ny 1\n<blk> 2\n"`. -/
theorem C4_label_list_branch :
    (∀ labels : List String,
      (labelsTokensLines labels).map Prod.fst = labels ++ ["<blk>"]) ∧
    writeTokensFile xyModel = "x 0\ny 1\n<blk> 2\n" := by
  refine ⟨fun labels => ?_, by decide⟩
  simp [labelsTokensLines, Function.comp_def]

/-- Claim C5: in either branch the ids of the written table are dense,
zero-based and strictly increasing by line order (they are exactly
`0, 1, ..., raw count` in order), and the final line is the blank entry
with id one past the last real vocabulary id. -/
theorem C5_ids_dense (m : Model) :
    (modelTokensLines m).map Prod.snd = List.range (rawVocabCount m + 1) ∧
    (modelTokensLines m).getLast? = some ("<blk>", rawVocabCount m) := by
  have hconcat : ∀ (l : List (String × Nat)) (p : String × Nat),
      (l ++ [p]).getLast? = some p := by
    intro l p
    exact List.getLast?_concat l
  cases h : m.tokenizer with
  | none =>
      refine ⟨?_, ?_⟩
      · simp [modelTokensLines, labelsTokensLines, rawVocabCount, h,
          Function.comp_def, List.range_succ]
      · simp [modelTokensLines, labelsTokensLines, rawVocabCount, h, hconcat]
  | some tk =>
      refine ⟨?_, ?_⟩
      · simp [modelTokensLines, tokenizerTokensLines, rawVocabCount, h,
          Function.comp_def, List.range_succ]
      · simp [modelTokensLines, tokenizerTokensLines, rawVocabCount, h, hconcat]

/-- Claim C6: when the tokenizer attribute is `None` or absent the label-list
branch is taken unconditionally — the output is `labelsTokensLines` of the
label list, a function that takes no tokenizer input, so no tokenizer API is
queried — and the tokenizer branch is taken exactly when the attribute is
present and not `None`. -/
theorem C6_branching (m : Model) :
    (m.tokenizer = none →
      modelTokensLines m = labelsTokensLines m.cfgLabels) ∧
    (∀ tk, m.tokenizer = some tk →
      modelTokensLines m = tokenizerTokensLines tk) := by
  constructor
  · intro h
    simp [modelTokensLines, h]
  · intro tk h
    simp [modelTokensLines, h]

/-- Witness for C6 at concrete models: the label-list branch on `xyModel`
and the tokenizer branch on `synthModel`. -/
theorem C6_branching_witness :
    modelTokensLines xyModel = labelsTokensLines xyModel.cfgLabels ∧
    modelTokensLines synthModel = tokenizerTokensLines synthTokenizer :=
  ⟨(C6_branching xyModel).1 rfl,
   (C6_branching synthModel).2 synthTokenizer rfl⟩

/-- Claim C7: when the nested config keys are absent, `normalize_type`
defaults to the empty string and `subsampling_factor` to the stringified
literal 4; when present, the configured value (stringified) is used. -/
theorem C7_config_defaults (m : Model) :
    (m.preprocessorCfg.lookup "normalize" = none → normalize_type m = "") ∧
    (∀ v, m.preprocessorCfg.lookup "normalize" = some v →
      normalize_type m = v.toStr) ∧
    (m.encoderCfg.lookup "subsampling_factor" = none →
      subsampling_factor m = "4") ∧
    (∀ v, m.encoderCfg.lookup "subsampling_factor" = some v →
      subsampling_factor m = v.toStr) := by
  refine ⟨fun h => ?_, fun v h => ?_, fun h => ?_, fun v h => ?_⟩
  · simp [normalize_type, cfgGet, h, ConfigVal.toStr]
  · simp [normalize_type, cfgGet, h]
  · simp only [subsampling_factor, cfgGet, h, ConfigVal.toStr]
    decide
  · simp [subsampling_factor, cfgGet, h]

/-- Witness for C7 at a concrete model: `normalize` configured as
`"per_feature"`, `subsampling_factor` absent. -/
theorem C7_config_defaults_witness :
    normalize_type cfgModel = "per_feature" ∧
    subsampling_factor cfgModel = "4" :=
  ⟨(C7_config_defaults cfgModel).2.1 (.str "per_feature") rfl,
   (C7_config_defaults cfgModel).2.2.1 rfl⟩

/-- Claim C8: applying the metadata patch twice appends the five-entry
mapping twice with no guard (the patch is a total function, so it cannot
raise); starting from an artifact with no prior metadata, each of the five
keys appears exactly twice after the second patch. -/
theorem C8_double_patch (m : Model) (om : OnnxModel) :
    (patchMetadata m (patchMetadata m om)).metadata_props =
      (om.metadata_props ++ exportMetadata m) ++ exportMetadata m ∧
    ((patchMetadata m
        (patchMetadata m { om with metadata_props := [] })).metadata_props.map
      Prod.fst) =
      ["vocab_size", "normalize_type", "subsampling_factor", "model_type",
       "version", "vocab_size", "normalize_type", "subsampling_factor",
       "model_type", "version"] :=
  ⟨rfl, rfl⟩

/-- Claim C9: the `vocab_size` metadata value equals the number of lines
written to tokens.txt, both being the raw vocabulary count plus one, for
any model state. -/
theorem C9_vocab_size_matches_lines (m : Model) :
    exportVocabSize m = (modelTokensLines m).length ∧
    (exportMetadata m).lookup "vocab_size" =
      some (toString ((modelTokensLines m).length)) := by
  have hlen : (modelTokensLines m).length = exportVocabSize m := by
    cases h : m.tokenizer <;>
      simp [modelTokensLines, tokenizerTokensLines, labelsTokensLines,
        exportVocabSize, h]
  refine ⟨hlen.symm, ?_⟩
  rw [hlen]
  rfl

/-- Claim C10: the metadata patch changes only `metadata_props`; the nodes,
weights, inputs and outputs of the ONNX artifact are unchanged. -/
theorem C10_frame (m : Model) (om : OnnxModel) :
    (patchMetadata m om).nodes = om.nodes ∧
    (patchMetadata m om).weights = om.weights ∧
    (patchMetadata m om).inputs = om.inputs ∧
    (patchMetadata m om).outputs = om.outputs ∧
    (patchMetadata m om).metadata_props = om.metadata_props ++ exportMetadata m :=
  ⟨rfl, rfl, rfl, rfl, rfl⟩

end ExportNemoCtc
